import Mathlib

/-
Verification of the send-email dispatch pipeline
(src/send-email/lambda_function.py) against its design document.

The Python module is shallowly embedded: pure helpers become Lean
functions; the external collaborators (S3 object store, SES delivery
provider, DynamoDB audit store, uuid/clock) become an explicit
environment of oracles, and every outward call is recorded in a trace
of events so that claims about "collaborator contacted" or "audit
record created" are statements about the trace.
-/

namespace SendEmail

/-- The character left-curly-brace, written via its code point. -/
def lbrace : Char := '\x7b'

/-- The character right-curly-brace, written via its code point. -/
def rbrace : Char := '\x7d'

/-- The lazy group of the pattern two-lbrace (.*?) two-rbrace: starting
just after an opening double brace, consume the shortest run of
non-newline characters that is followed by a closing double brace.
Returns the captured content and the remainder after the closing
double brace, or none when no closing double brace is reachable
without crossing a newline (dot does not match newline). -/
def scanContent : List Char → Option (List Char × List Char)
  | [] => none
  | c :: rest =>
      if c = rbrace ∧ rest.head? = some rbrace then some ([], rest.tail)
      else if c = '\n' then none
      else (scanContent rest).map fun p => (c :: p.1, p.2)

/-- re.findall of the pattern two-lbrace (.*?) two-rbrace: scan left to
right; at a position opening a double brace, lazily capture up to the
first closing double brace and resume after it; if the attempt fails
(newline before any closing double brace), resume one character later.
Fuel bounds the recursion; every step strictly shortens the list, so
fuel equal to the initial length is never exhausted. -/
def findallAux : Nat → List Char → List String
  | 0, _ => []
  | _, [] => []
  | fuel + 1, c :: rest =>
      if c = lbrace ∧ rest.head? = some lbrace then
        match scanContent rest.tail with
        | some (content, r) => String.mk content :: findallAux fuel r
        | none => findallAux fuel rest
      else findallAux fuel rest

/-- All placeholder captures of a template, in occurrence order
(line 50 of the source: re.findall over the template). -/
def findall (s : String) : List String :=
  findallAux s.data.length s.data

/-- validate_template (source lines 48-55): the placeholders of the
template whose names are not among the spreadsheet columns, in
occurrence order. -/
def validate_template (template_content : String) (columns : List String) : List String :=
  (findall template_content).filter (fun placeholder => !(columns.contains placeholder))

/-- re.sub of the pattern two-lbrace (.*?) two-rbrace replaced by a
single-braced group (source line 62): same scan as findall, but
unmatched text is emitted unchanged and each match is emitted with
single braces. -/
def subAux : Nat → List Char → List Char
  | 0, l => l
  | _, [] => []
  | fuel + 1, c :: rest =>
      if c = lbrace ∧ rest.head? = some lbrace then
        match scanContent rest.tail with
        | some (content, r) => lbrace :: content ++ rbrace :: subAux fuel r
        | none => c :: subAux fuel rest
      else c :: subAux fuel rest

/-- Template normalisation in send_email (source lines 59-62): drop
carriage returns (str.replace of the one-character pattern CR by the
empty string removes every CR), then rewrite double-braced
placeholders to single-braced ones for str.format. -/
def convertTemplate (t : String) : String :=
  let cleaned := t.data.filter (fun c => c != '\x0d')
  String.mk (subAux cleaned.length cleaned)

/-- A spreadsheet row, as produced by DataFrame.to_dict: a mapping from
column name to cell value. A key that is absent models a column whose
value is missing for this row. -/
abbrev Row := List (String × String)

/-- dict.get: the value under a key, or none when the key is absent. -/
def Row.get (row : Row) (key : String) : Option String :=
  (row.find? (fun kv => kv.1 == key)).map (fun kv => kv.2)

/-- Python truthiness test `not x` for an optional string: true when
the value is absent or the empty string. -/
def falsy : Option String → Bool
  | none => true
  | some s => s.data.isEmpty

/-- Whether needle occurs as a contiguous substring of hay. -/
def containsSubstr (hay needle : String) : Bool :=
  (List.range (hay.data.length + 1)).any fun i => needle.data.isPrefixOf (hay.data.drop i)

/-- The item written by save_to_dynamodb (source lines 102-111). -/
structure AuditRecord where
  run_id : String
  email_id : String
  display_name : String
  status : String
  recipient_email : Option String
  template_file_id : String
  spreadsheet_file_id : String
  created_at : String
deriving DecidableEq

/-- One outward call made by the pipeline: an S3 get_object, an SES
send_email, or a DynamoDB put_item.  The persisted flag of auditPut
records whether the put succeeded (false models a ClientError that
save_to_dynamodb catches and only logs). -/
inductive Event where
  | s3Get (key : String)
  | sesSendEmail (source : String) (toAddress : String)
  | auditPut (record : AuditRecord) (persisted : Bool)
deriving DecidableEq

/-- Whether an event is a DynamoDB audit-record put. -/
def Event.isAudit : Event → Bool
  | .auditPut _ _ => true
  | _ => false

/-- Whether an event is an SES delivery call. -/
def Event.isSend : Event → Bool
  | .sesSendEmail _ _ => true
  | _ => false

/-- Erase the persistence outcome of audit puts, leaving everything
else of the trace intact. -/
def Event.scrub : Event → Event
  | .auditPut r _ => .auditPut r true
  | e => e

/-- The external world of one invocation: the collaborators (S3, the
Excel parser, str.format, SES, DynamoDB) and the nondeterministic
values (uuid4, clocks).  Per-row collaborator outcomes are indexed by
the row position in the table. -/
structure Env where
  /-- S3 get_object plus utf-8 decode for the template key: the
  template text, or the message of the exception raised. -/
  getTemplate : String → Except String String
  /-- S3 get_object plus pandas read_excel for the spreadsheet key:
  the parsed rows (to_dict records) and the column list, or the
  message of the exception raised. -/
  readSheet : String → Except String (List Row × List String)
  /-- str.format of the converted template against one row: the
  rendered content, or none when format raises (e.g. a key absent
  from this row, or a stray brace). -/
  format : String → Row → Option String
  /-- Outcome of the SES send for row i with the given source,
  destination, subject and html body: true = delivered, false = the
  client raised. -/
  sesSend : Nat → String → String → String → String → Bool
  /-- Outcome of the DynamoDB put_item for row i: false models a
  ClientError. -/
  putOk : Nat → Bool
  /-- uuid4().hex used when the request carries no run_id. -/
  freshRunId : String
  /-- uuid4().hex used as email_id for row i. -/
  emailId : Nat → String
  /-- Formatted send time (now + 8 hours) for row i. -/
  sendTime : Nat → String
  /-- Formatted created_at timestamp for row i. -/
  createdAt : Nat → String
  /-- Formatted timestamp of the response body. -/
  responseTime : String
  /-- uuid4().hex reported as sqs_message_id. -/
  sqsMessageId : String

/-- The request body after json.loads: each field of interest, absent
when the JSON key is missing. -/
structure RequestBody where
  template_file_id : Option String
  spreadsheet_file_id : Option String
  subject : Option String
  display_name : Option String
  run_id : Option String
deriving DecidableEq

/-- The invocation event: either json.loads of the body raised (with
the exception's message), or it parsed. -/
inductive EventInput where
  | parseError (message : String)
  | parsed (body : RequestBody)

/-- The dict serialised as the 200/207 response body (source lines
167-176); failed_recipients is none exactly when the key is absent. -/
structure SummaryBody where
  status : String
  message : String
  request_id : String
  timestamp : String
  sqs_message_id : String
  failed_recipients : Option (List (Option String))
deriving DecidableEq

/-- A response body: json.dumps of a plain string, or of the summary
dict. -/
inductive Body where
  | msg (text : String)
  | summary (b : SummaryBody)
deriving DecidableEq

/-- An API Gateway style response. -/
structure Response where
  statusCode : Nat
  body : Body
deriving DecidableEq

/-- get_template (source lines 16-25): fetch and decode the template;
any exception is re-raised to the caller. -/
def get_template (env : Env) (template_file_id : String) : Except String String :=
  env.getTemplate template_file_id

/-- What the caller of read_sheet_data_from_s3 receives on success:
either the (rows, columns) pair of source line 42, or the
([], 0, True) triple of source line 40, returned when the parsed
DataFrame is empty (zero rows or zero columns). -/
inductive SheetUnpack where
  | pair (rows : List Row) (columns : List String)
  | triple
deriving DecidableEq

/-- read_sheet_data_from_s3 (source lines 28-45): fetch and parse the
spreadsheet; a DataFrame with zero rows or zero columns takes the
`if excel_data.empty` branch and returns a 3-tuple; exceptions are
re-raised. -/
def read_sheet_data_from_s3 (env : Env) (spreadsheet_file_id : String) :
    Except String SheetUnpack :=
  match env.readSheet spreadsheet_file_id with
  | .error e => .error e
  | .ok (rows, columns) =>
      if rows.isEmpty || columns.isEmpty then .ok .triple
      else .ok (.pair rows columns)

/-- The hard-coded source address (source line 71). -/
def source_email : String := "awseducate.cloudambassador@gmail.com"

/-- send_email (source lines 57-94) for row i: returns the SES calls
made, the formatted send time (or "Failed"), and the status string.
A blank recipient address skips delivery; an exception from
str.format or from the SES client is caught and yields FAILED. -/
def send_email (env : Env) (i : Nat) (email_title : String) (template_content : String)
    (row : Row) (display_name : String) : List Event × String × String :=
  let template_content := convertTemplate template_content
  let receiver_email := Row.get row "Email"
  if falsy receiver_email then
    ([], "Failed", "FAILED")
  else
    match env.format template_content row with
    | none => ([], "Failed", "FAILED")
    | some formatted_content =>
        let formatted_source_email := display_name ++ " <" ++ source_email ++ ">"
        let toAddress := receiver_email.getD ""
        if env.sesSend i formatted_source_email toAddress email_title formatted_content then
          ([Event.sesSendEmail formatted_source_email toAddress], env.sendTime i, "SUCCESS")
        else
          ([Event.sesSendEmail formatted_source_email toAddress], "Failed", "FAILED")

/-- save_to_dynamodb (source lines 96-119) for row i: build the item
and attempt put_item; a ClientError from the put is caught and only
printed, so the call always returns and only the persisted flag of
the recorded event reflects the outcome. -/
def save_to_dynamodb (env : Env) (i : Nat) (run_id email_id display_name status : String)
    (recipient_email : Option String) (template_file_id spreadsheet_file_id created_at : String) :
    List Event :=
  let item : AuditRecord :=
    { run_id := run_id, email_id := email_id, display_name := display_name, status := status,
      recipient_email := recipient_email, template_file_id := template_file_id,
      spreadsheet_file_id := spreadsheet_file_id, created_at := created_at }
  [Event.auditPut item (env.putOk i)]

/-- One iteration of the dispatch loop (source lines 152-165) for the
row at position i: attempt the send, extend the failed-recipients
list when the status is FAILED, and save the audit record.  Returns
the events of this iteration and the failed-recipient entries. -/
def processRow (env : Env) (i : Nat)
    (run_id email_title template_content display_name template_file_id spreadsheet_id : String)
    (row : Row) : List Event × List (Option String) :=
  let r := send_email env i email_title template_content row display_name
  let status := r.2.2
  let failedHere : List (Option String) :=
    if status == "FAILED" then [Row.get row "Email"] else []
  (r.1 ++
    save_to_dynamodb env i run_id (env.emailId i) display_name status (Row.get row "Email")
      template_file_id spreadsheet_id (env.createdAt i),
   failedHere)

/-- The dispatch loop over the remaining rows, starting at position i:
concatenated events and failed-recipient entries, in table order. -/
def processRows (env : Env)
    (run_id email_title template_content display_name template_file_id spreadsheet_id : String) :
    List Row → Nat → List Event × List (Option String)
  | [], _ => ([], [])
  | row :: rest, i =>
      let a := processRow env i run_id email_title template_content display_name
        template_file_id spreadsheet_id row
      let b := processRows env run_id email_title template_content display_name
        template_file_id spreadsheet_id rest (i + 1)
      (a.1 ++ b.1, a.2 ++ b.2)

/-- run_id selection (source line 128): the caller's run_id when
truthy, else a fresh uuid4 hex. -/
def runIdOf (env : Env) (body : RequestBody) : String :=
  match body.run_id with
  | some r => if r.data.isEmpty then env.freshRunId else r
  | none => env.freshRunId

/-- The fixed body of the missing-required-field rejection (source
lines 133-135). -/
def missingFieldsMessage : String :=
  "Missing template_file_id, spreadsheet_id, email_title, or display_name"

/-- The response and trace of the dispatch-and-aggregate phase
(source lines 150-179), once the template text and the table rows are
in hand. -/
def dispatchResult (env : Env) (body : RequestBody) (template_content : String)
    (data : List Row) : Response × List Event :=
  let run_id := runIdOf env body
  let r := processRows env run_id (body.subject.getD "") template_content
    (body.display_name.getD "") (body.template_file_id.getD "")
    (body.spreadsheet_file_id.getD "") data 0
  let response : SummaryBody :=
    { status := "success", message := "Email request has been queued successfully.",
      request_id := run_id, timestamp := env.responseTime,
      sqs_message_id := env.sqsMessageId,
      failed_recipients := if r.2.isEmpty then none else some r.2 }
  let events := Event.s3Get (body.template_file_id.getD "") ::
    Event.s3Get (body.spreadsheet_file_id.getD "") :: r.1
  if r.2.isEmpty then
    ({ statusCode := 200, body := .summary response }, events)
  else
    ({ statusCode := 207, body := .summary response }, events)

/-- The try-block of lambda_handler (source lines 122-179): an
exception escaping it is returned as Except.error carrying the
exception's message, together with the trace accumulated so far.
The 3-tuple returned for an empty sheet fails to unpack into
`data, columns` at source line 139 and raises a ValueError. -/
def handlerBody (env : Env) (event : EventInput) : Except String Response × List Event :=
  match event with
  | .parseError e => (.error e, [])
  | .parsed body =>
      if falsy body.template_file_id || falsy body.spreadsheet_file_id ||
          falsy body.subject || falsy body.display_name then
        (.ok { statusCode := 400, body := .msg missingFieldsMessage }, [])
      else
        let template_file_id := body.template_file_id.getD ""
        let spreadsheet_id := body.spreadsheet_file_id.getD ""
        match get_template env template_file_id with
        | .error e => (.error e, [Event.s3Get template_file_id])
        | .ok template_content =>
            match read_sheet_data_from_s3 env spreadsheet_id with
            | .error e =>
                (.error e, [Event.s3Get template_file_id, Event.s3Get spreadsheet_id])
            | .ok .triple =>
                (.error "too many values to unpack (expected 2)",
                 [Event.s3Get template_file_id, Event.s3Get spreadsheet_id])
            | .ok (.pair data columns) =>
                let missing_columns := validate_template template_content columns
                if missing_columns.isEmpty then
                  let d := dispatchResult env body template_content data
                  (.ok d.1, d.2)
                else
                  (.ok { statusCode := 400,
                         body := .msg ("Missing columns in Excel for placeholders: " ++
                           String.intercalate ", " missing_columns) },
                   [Event.s3Get template_file_id, Event.s3Get spreadsheet_id])

/-- lambda_handler (source lines 121-183): the try-block, with the
outermost except turning any escaping exception into a 500 response
whose body appends the exception's message to "Internal server
error: " (source line 183). -/
def lambda_handler (env : Env) (event : EventInput) : Response × List Event :=
  match handlerBody env event with
  | (Except.ok r, trace) => (r, trace)
  | (Except.error e, trace) =>
      ({ statusCode := 500, body := .msg ("Internal server error: " ++ e) }, trace)

/-- The failed-recipients list accumulated by a run that dispatches
the given rows against the given template. -/
def runFailed (env : Env) (body : RequestBody) (template_content : String)
    (data : List Row) : List (Option String) :=
  (processRows env (runIdOf env body) (body.subject.getD "") template_content
    (body.display_name.getD "") (body.template_file_id.getD "")
    (body.spreadsheet_file_id.getD "") data 0).2

-- Concrete inputs used by witnesses and counterexamples.

/-- A recipient row with a usable address. -/
def row0 : Row := [("Name", "Alice"), ("Email", "alice@example.com")]

/-- A recipient row with no Email entry. -/
def rowNoEmail : Row := [("Name", "Bob")]

/-- A template whose only placeholder is Name. -/
def T0 : String := "Hello \x7b\x7bName\x7d\x7d"

/-- A one-row table. -/
def rows0 : List Row := [row0]

/-- Its columns. -/
def cols0 : List String := ["Name", "Email"]

/-- A fully specified, healthy environment: fetches succeed, the sheet
has one row, rendering and delivery succeed, puts persist. -/
def env0 : Env :=
  { getTemplate := fun _ => Except.ok T0
    readSheet := fun _ => Except.ok (rows0, cols0)
    format := fun _ _ => some "Hello Alice"
    sesSend := fun _ _ _ _ _ => true
    putOk := fun _ => true
    freshRunId := "run-1"
    emailId := fun i => "em-" ++ toString i
    sendTime := fun _ => "2024-01-01T08:00:00"
    createdAt := fun _ => "2024-01-01T00:00:00"
    responseTime := "2024-01-01T00:00:01"
    sqsMessageId := "sqs-1" }

/-- env0 with a spreadsheet that parses to zero rows. -/
def envEmptySheet : Env := { env0 with readSheet := fun _ => Except.ok ([], cols0) }

/-- env0 with a template whose placeholder matches no column. -/
def envMiss : Env := { env0 with getTemplate := fun _ => Except.ok "Hi \x7b\x7bPhone\x7d\x7d" }

/-- env0 with a delivery provider that always fails. -/
def envSendFail : Env := { env0 with sesSend := fun _ _ _ _ _ => false }

/-- env0 with a template fetch that raises an S3 error. -/
def envErrA : Env :=
  { env0 with getTemplate := fun _ =>
      Except.error "An error occurred (NoSuchKey) when calling the GetObject operation" }

/-- env0 with a template fetch that raises a different error. -/
def envErrB : Env :=
  { env0 with getTemplate := fun _ => Except.error "connection reset by peer" }

/-- A request body carrying every required field. -/
def fullBody : RequestBody :=
  { template_file_id := some "t.html", spreadsheet_file_id := some "s.xlsx",
    subject := some "Hi", display_name := some "Team", run_id := some "run-9" }

/-- A request body whose subject is absent. -/
def noSubjectBody : RequestBody :=
  { template_file_id := some "t.html", spreadsheet_file_id := some "s.xlsx",
    subject := none, display_name := some "Team", run_id := none }

end SendEmail

namespace SendEmail

-- Sanity checks of the regex model on concrete templates.

example : findall "Hello \x7b\x7bName\x7d\x7d and \x7b\x7bEmail\x7d\x7d" = ["Name", "Email"] := by decide

example : findall "\x7b\x7b\x7b\x7ba\x7d\x7d\x7d\x7d" = ["\x7b\x7ba"] := by decide

example : findall "\x7b\x7ba\x7db\x7d\x7d" = ["a\x7db"] := by decide

example : findall "\x7b\x7ba\nb\x7d\x7d" = [] := by decide

example : validate_template "Hi \x7b\x7bPhone\x7d\x7d" ["Name", "Email"] = ["Phone"] := by decide

example : convertTemplate "Hi \x7b\x7bName\x7d\x7d!" = "Hi \x7bName\x7d!" := by decide

/-- C1: validate_template returns the empty collection iff every
placeholder captured from the template names an available column, and
the returned missing names are a sublist of the capture list, hence
follow occurrence order in the template. -/
theorem validate_template_correct (T : String) (C : List String) :
    (validate_template T C = [] ↔ ∀ p ∈ findall T, p ∈ C) ∧
    List.Sublist (validate_template T C) (findall T) := by
  refine ⟨?_, List.filter_sublist _⟩
  unfold validate_template
  rw [List.filter_eq_nil_iff]
  constructor
  · intro h p hp
    have := h p hp
    simpa using this
  · intro h p hp
    simpa using h p hp

-- Helper lemmas shared by the handler-level theorems.

/-- Under present fields, successful fetches, a non-empty sheet and no
missing placeholder, the handler reduces to the dispatch phase. -/
theorem handlerBody_dispatch (env : Env) (b : RequestBody) (T : String)
    (rows : List Row) (cols : List String)
    (hf : (falsy b.template_file_id || falsy b.spreadsheet_file_id ||
      falsy b.subject || falsy b.display_name) = false)
    (hT : env.getTemplate (b.template_file_id.getD "") = Except.ok T)
    (hS : env.readSheet (b.spreadsheet_file_id.getD "") = Except.ok (rows, cols))
    (hr : rows.isEmpty = false) (hc : cols.isEmpty = false)
    (hv : validate_template T cols = []) :
    lambda_handler env (.parsed b) = dispatchResult env b T rows := by
  simp [lambda_handler, handlerBody, get_template, read_sheet_data_from_s3,
    hf, hT, hS, hr, hc, hv]

/-- send_email never produces an audit event. -/
theorem send_email_audit_free (env : Env) (i : Nat) (a t : String) (row : Row) (d : String) :
    ((send_email env i a t row d).1.countP Event.isAudit) = 0 := by
  simp only [send_email]
  split
  · rfl
  · split
    · rfl
    · split <;> rfl

/-- Each loop iteration contributes exactly one audit event. -/
theorem processRow_audit_one (env : Env) (i : Nat)
    (rid et tc dn tf sf : String) (row : Row) :
    ((processRow env i rid et tc dn tf sf row).1.countP Event.isAudit) = 1 := by
  simp only [processRow, save_to_dynamodb, List.countP_append]
  rw [send_email_audit_free]
  rfl

/-- The dispatch loop contributes one audit event per row. -/
theorem processRows_audit_count (env : Env)
    (rid et tc dn tf sf : String) (rows : List Row) :
    ∀ i, ((processRows env rid et tc dn tf sf rows i).1.countP Event.isAudit) = rows.length := by
  induction rows with
  | nil => intro i; rfl
  | cons row rest ih =>
      intro i
      simp [processRows, List.countP_append, processRow_audit_one, ih (i + 1),
        Nat.add_comm]

/-- Overriding the put outcomes leaves the S3 oracle unchanged. -/
theorem putOk_getTemplate (env : Env) (f : Nat → Bool) :
    ({ env with putOk := f } : Env).getTemplate = env.getTemplate := rfl

/-- Overriding the put outcomes leaves the sheet oracle unchanged. -/
theorem putOk_readSheet (env : Env) (f : Nat → Bool) :
    ({ env with putOk := f } : Env).readSheet = env.readSheet := rfl

/-- Overriding the put outcomes leaves the run-id choice unchanged. -/
theorem runIdOf_putOk (env : Env) (f : Nat → Bool) (b : RequestBody) :
    runIdOf { env with putOk := f } b = runIdOf env b := rfl

/-- Overriding the put outcomes leaves a loop iteration's failed list
unchanged and its events unchanged up to the persisted flag. -/
theorem processRow_putOk (env : Env) (f : Nat → Bool) (i : Nat)
    (rid et tc dn tf sf : String) (row : Row) :
    ((processRow { env with putOk := f } i rid et tc dn tf sf row).2 =
      (processRow env i rid et tc dn tf sf row).2) ∧
    (((processRow { env with putOk := f } i rid et tc dn tf sf row).1.map Event.scrub) =
      ((processRow env i rid et tc dn tf sf row).1.map Event.scrub)) := by
  have hsend : send_email { env with putOk := f } i et tc row dn =
      send_email env i et tc row dn := rfl
  constructor
  · simp [processRow, hsend]
  · simp [processRow, hsend, save_to_dynamodb, Event.scrub]

/-- Overriding the put outcomes leaves the loop's failed list unchanged
and its events unchanged up to the persisted flag. -/
theorem processRows_putOk (env : Env) (f : Nat → Bool)
    (rid et tc dn tf sf : String) (rows : List Row) : ∀ i,
    ((processRows { env with putOk := f } rid et tc dn tf sf rows i).2 =
      (processRows env rid et tc dn tf sf rows i).2) ∧
    (((processRows { env with putOk := f } rid et tc dn tf sf rows i).1.map Event.scrub) =
      ((processRows env rid et tc dn tf sf rows i).1.map Event.scrub)) := by
  induction rows with
  | nil => exact fun _ => ⟨rfl, rfl⟩
  | cons row rest ih =>
      intro i
      obtain ⟨h2, h1⟩ := processRow_putOk env f i rid et tc dn tf sf row
      obtain ⟨ih2, ih1⟩ := ih (i + 1)
      constructor
      · simp [processRows, h2, ih2]
      · simp [processRows, List.map_append, h1, ih1]

/-- Overriding the put outcomes leaves the dispatch-phase response
unchanged and its trace unchanged up to the persisted flag. -/
theorem dispatchResult_putOk (env : Env) (f : Nat → Bool) (b : RequestBody)
    (T : String) (rows : List Row) :
    (dispatchResult { env with putOk := f } b T rows).1 = (dispatchResult env b T rows).1 ∧
    ((dispatchResult { env with putOk := f } b T rows).2.map Event.scrub) =
      ((dispatchResult env b T rows).2.map Event.scrub) := by
  obtain ⟨h2, h1⟩ := processRows_putOk env f (runIdOf env b) (b.subject.getD "") T
    (b.display_name.getD "") (b.template_file_id.getD "")
    (b.spreadsheet_file_id.getD "") rows 0
  by_cases hE : ((processRows env (runIdOf env b) (b.subject.getD "") T
      (b.display_name.getD "") (b.template_file_id.getD "")
      (b.spreadsheet_file_id.getD "") rows 0).2.isEmpty = true)
  · constructor <;>
      simp [dispatchResult, runIdOf_putOk, h2, h1, hE, Event.scrub]
  · have hE' : ((processRows env (runIdOf env b) (b.subject.getD "") T
        (b.display_name.getD "") (b.template_file_id.getD "")
        (b.spreadsheet_file_id.getD "") rows 0).2.isEmpty = false) := by
      simpa using hE
    constructor <;>
      simp [dispatchResult, runIdOf_putOk, h2, h1, hE', Event.scrub]

-- Claim theorems.

/-- C2: the claim says a run over a recipient table parsing to zero
rows completes with success, zero deliveries and zero audit records;
on the code, the empty-sheet branch of read_sheet_data_from_s3 returns
a 3-tuple that the caller unpacks into two variables, so the run
raises and returns a 500 internal-error response instead (zero
deliveries and zero audit records do hold). -/
theorem empty_sheet_internal_error :
    (lambda_handler envEmptySheet (.parsed fullBody)).1 =
      { statusCode := 500,
        body := .msg "Internal server error: too many values to unpack (expected 2)" } ∧
    ((lambda_handler envEmptySheet (.parsed fullBody)).2.countP Event.isAudit) = 0 ∧
    ((lambda_handler envEmptySheet (.parsed fullBody)).2.countP Event.isSend) = 0 :=
  ⟨rfl, rfl, rfl⟩

/-- C3 counterexample: a request missing only the subject is rejected
with the fixed message, whose text does not name the missing field
subject (nor the request field spreadsheet_file_id): the body does not
name the missing required fields. -/
theorem missing_subject_not_named :
    (lambda_handler env0 (.parsed noSubjectBody)).1.statusCode = 400 ∧
    (lambda_handler env0 (.parsed noSubjectBody)).1.body = Body.msg missingFieldsMessage ∧
    containsSubstr missingFieldsMessage "subject" = false ∧
    containsSubstr missingFieldsMessage "spreadsheet_file_id" = false := by
  refine ⟨rfl, rfl, ?_, ?_⟩ <;> decide

/-- C3 amended: when any required field is absent or empty, the
handler returns 400 with the fixed body naming the four required
inputs under internal names (template_file_id, spreadsheet_id,
email_title, display_name), and no collaborator is contacted (the
trace is empty). -/
theorem missing_fields_fixed_message (env : Env) (b : RequestBody)
    (h : (falsy b.template_file_id || falsy b.spreadsheet_file_id ||
      falsy b.subject || falsy b.display_name) = true) :
    lambda_handler env (.parsed b) =
      ({ statusCode := 400, body := .msg missingFieldsMessage }, []) := by
  simp [lambda_handler, handlerBody, h]

/-- Witness for the amended C3 at a concrete request missing subject. -/
theorem missing_fields_fixed_message_witness :
    lambda_handler env0 (.parsed noSubjectBody) =
      ({ statusCode := 400, body := .msg missingFieldsMessage }, []) :=
  missing_fields_fixed_message env0 noSubjectBody rfl

/-- C4: when placeholder validation is non-empty, the handler returns
400 with a body listing every missing placeholder name comma-joined,
and the trace holds no delivery call and no audit put. -/
theorem missing_placeholders_rejected (env : Env) (b : RequestBody) (T : String)
    (rows : List Row) (cols : List String)
    (hf : (falsy b.template_file_id || falsy b.spreadsheet_file_id ||
      falsy b.subject || falsy b.display_name) = false)
    (hT : env.getTemplate (b.template_file_id.getD "") = Except.ok T)
    (hS : env.readSheet (b.spreadsheet_file_id.getD "") = Except.ok (rows, cols))
    (hr : rows.isEmpty = false) (hc : cols.isEmpty = false)
    (hm : validate_template T cols ≠ []) :
    (lambda_handler env (.parsed b)).1 =
      { statusCode := 400,
        body := .msg ("Missing columns in Excel for placeholders: " ++
          String.intercalate ", " (validate_template T cols)) } ∧
    ((lambda_handler env (.parsed b)).2.countP Event.isAudit) = 0 ∧
    ((lambda_handler env (.parsed b)).2.countP Event.isSend) = 0 := by
  have hmiss : (validate_template T cols).isEmpty = false := by
    cases hval : validate_template T cols with
    | nil => exact absurd hval hm
    | cons a l => rfl
  refine ⟨?_, ?_, ?_⟩ <;>
    simp [lambda_handler, handlerBody, get_template, read_sheet_data_from_s3,
      hf, hT, hS, hr, hc, hmiss, Event.isAudit, Event.isSend]

/-- Witness for C4 at a template whose placeholder Phone matches no
column. -/
theorem missing_placeholders_rejected_witness :
    (lambda_handler envMiss (.parsed fullBody)).1 =
      { statusCode := 400,
        body := .msg ("Missing columns in Excel for placeholders: " ++
          String.intercalate ", " (validate_template "Hi \x7b\x7bPhone\x7d\x7d" cols0)) } ∧
    ((lambda_handler envMiss (.parsed fullBody)).2.countP Event.isAudit) = 0 ∧
    ((lambda_handler envMiss (.parsed fullBody)).2.countP Event.isSend) = 0 :=
  missing_placeholders_rejected envMiss fullBody "Hi \x7b\x7bPhone\x7d\x7d" rows0 cols0
    rfl rfl rfl rfl rfl (by decide)

/-- C5: for a row whose Email value is missing or empty, the loop
iteration makes no delivery call (its only event is the audit put) and
the audit record carries status FAILED. -/
theorem blank_email_row_failed (env : Env) (i : Nat)
    (run_id email_title template_content display_name template_file_id spreadsheet_id : String)
    (row : Row) (h : falsy (Row.get row "Email") = true) :
    processRow env i run_id email_title template_content display_name
      template_file_id spreadsheet_id row =
      ([Event.auditPut
          { run_id := run_id, email_id := env.emailId i, display_name := display_name,
            status := "FAILED", recipient_email := Row.get row "Email",
            template_file_id := template_file_id, spreadsheet_file_id := spreadsheet_id,
            created_at := env.createdAt i } (env.putOk i)],
       [Row.get row "Email"]) := by
  simp [processRow, send_email, save_to_dynamodb, h]

/-- Witness for C5 at a concrete row lacking an Email entry. -/
theorem blank_email_row_failed_witness :
    processRow env0 0 "run-9" "Hi" T0 "Team" "t.html" "s.xlsx" rowNoEmail =
      ([Event.auditPut
          { run_id := "run-9", email_id := env0.emailId 0, display_name := "Team",
            status := "FAILED", recipient_email := Row.get rowNoEmail "Email",
            template_file_id := "t.html", spreadsheet_file_id := "s.xlsx",
            created_at := env0.createdAt 0 } (env0.putOk 0)],
       [Row.get rowNoEmail "Email"]) :=
  blank_email_row_failed env0 0 "run-9" "Hi" T0 "Team" "t.html" "s.xlsx" rowNoEmail rfl

/-- C6: a run that reaches the dispatch loop creates exactly one audit
record per row, whatever the per-row delivery or rendering outcomes
(the environment is arbitrary), so no row's failure halts the loop. -/
theorem audit_count_eq_rows (env : Env) (b : RequestBody) (T : String)
    (rows : List Row) (cols : List String)
    (hf : (falsy b.template_file_id || falsy b.spreadsheet_file_id ||
      falsy b.subject || falsy b.display_name) = false)
    (hT : env.getTemplate (b.template_file_id.getD "") = Except.ok T)
    (hS : env.readSheet (b.spreadsheet_file_id.getD "") = Except.ok (rows, cols))
    (hr : rows.isEmpty = false) (hc : cols.isEmpty = false)
    (hv : validate_template T cols = []) :
    ((lambda_handler env (.parsed b)).2.countP Event.isAudit) = rows.length := by
  rw [handlerBody_dispatch env b T rows cols hf hT hS hr hc hv]
  by_cases hE : ((processRows env (runIdOf env b) (b.subject.getD "") T
      (b.display_name.getD "") (b.template_file_id.getD "")
      (b.spreadsheet_file_id.getD "") rows 0).2.isEmpty = true)
  · simp [dispatchResult, hE, Event.isAudit, processRows_audit_count]
  · have hE' := eq_false_of_ne_true hE
    simp [dispatchResult, hE', Event.isAudit, processRows_audit_count]

/-- Witness for C6 at the one-row healthy environment. -/
theorem audit_count_eq_rows_witness :
    ((lambda_handler env0 (.parsed fullBody)).2.countP Event.isAudit) = rows0.length :=
  audit_count_eq_rows env0 fullBody T0 rows0 cols0 rfl rfl rfl rfl rfl rfl

/-- C7: replacing the audit-store put outcomes by any other outcomes
changes neither the response (status code and body, hence neither the
run-level result nor any reported delivery status) nor the trace up to
the persisted flag: every row is still processed, with the same
delivery calls and the same audit records. -/
theorem audit_failure_isolated (env : Env) (f : Nat → Bool) (event : EventInput) :
    (lambda_handler { env with putOk := f } event).1 = (lambda_handler env event).1 ∧
    ((lambda_handler { env with putOk := f } event).2.map Event.scrub) =
      ((lambda_handler env event).2.map Event.scrub) := by
  cases event with
  | parseError e => exact ⟨rfl, rfl⟩
  | parsed b =>
    by_cases hf : (falsy b.template_file_id || falsy b.spreadsheet_file_id ||
        falsy b.subject || falsy b.display_name) = true
    · constructor <;> simp [lambda_handler, handlerBody, hf]
    · have hf' : (falsy b.template_file_id || falsy b.spreadsheet_file_id ||
          falsy b.subject || falsy b.display_name) = false := by simpa using hf
      cases hT : env.getTemplate (b.template_file_id.getD "") with
      | error e =>
          constructor <;>
            simp [lambda_handler, handlerBody, get_template, putOk_getTemplate, hf', hT]
      | ok T =>
          cases hS : env.readSheet (b.spreadsheet_file_id.getD "") with
          | error e =>
              constructor <;>
                simp [lambda_handler, handlerBody, get_template, read_sheet_data_from_s3,
                  putOk_getTemplate, putOk_readSheet, hf', hT, hS]
          | ok rc =>
              obtain ⟨rows, cols⟩ := rc
              by_cases hre : (rows.isEmpty || cols.isEmpty) = true
              · constructor <;>
                  simp [lambda_handler, handlerBody, get_template, read_sheet_data_from_s3,
                    putOk_getTemplate, putOk_readSheet, hf', hT, hS, hre]
              · have hre' : (rows.isEmpty || cols.isEmpty) = false := by simpa using hre
                by_cases hm : ((validate_template T cols).isEmpty = true)
                · obtain ⟨hd1, hd2⟩ := dispatchResult_putOk env f b T rows
                  constructor <;>
                    simp [lambda_handler, handlerBody, get_template, read_sheet_data_from_s3,
                      putOk_getTemplate, putOk_readSheet, hf', hT, hS, hre', hm, hd1, hd2]
                · have hm' := eq_false_of_ne_true hm
                  constructor <;>
                    simp [lambda_handler, handlerBody, get_template, read_sheet_data_from_s3,
                      putOk_getTemplate, putOk_readSheet, hf', hT, hS, hre', hm']

/-- C8: a run that reaches the dispatch loop answers 207 iff the
failed-recipients list is non-empty and 200 iff it is empty; the
summary body carries the run identifier, the timestamp, the synthetic
sqs_message_id token, and the failed_recipients field exactly when
some recipient failed. -/
theorem run_summary_response (env : Env) (b : RequestBody) (T : String)
    (rows : List Row) (cols : List String)
    (hf : (falsy b.template_file_id || falsy b.spreadsheet_file_id ||
      falsy b.subject || falsy b.display_name) = false)
    (hT : env.getTemplate (b.template_file_id.getD "") = Except.ok T)
    (hS : env.readSheet (b.spreadsheet_file_id.getD "") = Except.ok (rows, cols))
    (hr : rows.isEmpty = false) (hc : cols.isEmpty = false)
    (hv : validate_template T cols = []) :
    ((lambda_handler env (.parsed b)).1.statusCode = 207 ↔ runFailed env b T rows ≠ []) ∧
    ((lambda_handler env (.parsed b)).1.statusCode = 200 ↔ runFailed env b T rows = []) ∧
    (lambda_handler env (.parsed b)).1.body = Body.summary
      { status := "success", message := "Email request has been queued successfully.",
        request_id := runIdOf env b, timestamp := env.responseTime,
        sqs_message_id := env.sqsMessageId,
        failed_recipients :=
          if (runFailed env b T rows).isEmpty then none
          else some (runFailed env b T rows) } := by
  rw [handlerBody_dispatch env b T rows cols hf hT hS hr hc hv]
  cases hF : (processRows env (runIdOf env b) (b.subject.getD "") T
      (b.display_name.getD "") (b.template_file_id.getD "")
      (b.spreadsheet_file_id.getD "") rows 0).2 with
  | nil => refine ⟨?_, ?_, ?_⟩ <;> simp [dispatchResult, runFailed, hF]
  | cons x xs => refine ⟨?_, ?_, ?_⟩ <;> simp [dispatchResult, runFailed, hF]

/-- Witness for C8 at the one-row healthy environment (full success). -/
theorem run_summary_response_witness :
    ((lambda_handler env0 (.parsed fullBody)).1.statusCode = 207 ↔
      runFailed env0 fullBody T0 rows0 ≠ []) ∧
    ((lambda_handler env0 (.parsed fullBody)).1.statusCode = 200 ↔
      runFailed env0 fullBody T0 rows0 = []) ∧
    (lambda_handler env0 (.parsed fullBody)).1.body = Body.summary
      { status := "success", message := "Email request has been queued successfully.",
        request_id := runIdOf env0 fullBody, timestamp := env0.responseTime,
        sqs_message_id := env0.sqsMessageId,
        failed_recipients :=
          if (runFailed env0 fullBody T0 rows0).isEmpty then none
          else some (runFailed env0 fullBody T0 rows0) } :=
  run_summary_response env0 fullBody T0 rows0 cols0 rfl rfl rfl rfl rfl rfl

/-- C9 counterexample: two runs that differ only in the message of the
internal exception both answer 500 but with different bodies, and the
body is the string "Internal server error: " followed by the
exception's message, so the 500 body is not a generic message free of
internal detail. -/
theorem internal_error_exposes_detail :
    (lambda_handler envErrA (.parsed fullBody)).1.statusCode = 500 ∧
    (lambda_handler envErrB (.parsed fullBody)).1.statusCode = 500 ∧
    (lambda_handler envErrA (.parsed fullBody)).1.body ≠
      (lambda_handler envErrB (.parsed fullBody)).1.body ∧
    (lambda_handler envErrA (.parsed fullBody)).1.body =
      Body.msg ("Internal server error: " ++
        "An error occurred (NoSuchKey) when calling the GetObject operation") := by
  refine ⟨rfl, rfl, ?_, rfl⟩
  decide

/-- C9 amended: any exception escaping the handler's try-block yields
a 500 response whose body is "Internal server error: " followed by the
exception's own message — a fixed prefix, no stack trace, but the
exception detail is included. -/
theorem internal_error_message (env : Env) (event : EventInput) (e : String)
    (trace : List Event) (h : handlerBody env event = (Except.error e, trace)) :
    lambda_handler env event =
      ({ statusCode := 500, body := .msg ("Internal server error: " ++ e) }, trace) := by
  simp [lambda_handler, h]

/-- Witness for the amended C9 at a concrete failing template fetch. -/
theorem internal_error_message_witness :
    lambda_handler envErrA (.parsed fullBody) =
      ({ statusCode := 500,
         body := .msg ("Internal server error: " ++
           "An error occurred (NoSuchKey) when calling the GetObject operation") },
       [Event.s3Get "t.html"]) :=
  internal_error_message envErrA (.parsed fullBody)
    "An error occurred (NoSuchKey) when calling the GetObject operation"
    [Event.s3Get "t.html"] rfl

/-- C10: when at least one row failed, the response code is 207 and
the body's status field still carries "success", with
failed_recipients present — only the code and that field distinguish
partial from full success. -/
theorem failed_run_status_field (env : Env) (b : RequestBody) (T : String)
    (rows : List Row) (cols : List String)
    (hf : (falsy b.template_file_id || falsy b.spreadsheet_file_id ||
      falsy b.subject || falsy b.display_name) = false)
    (hT : env.getTemplate (b.template_file_id.getD "") = Except.ok T)
    (hS : env.readSheet (b.spreadsheet_file_id.getD "") = Except.ok (rows, cols))
    (hr : rows.isEmpty = false) (hc : cols.isEmpty = false)
    (hv : validate_template T cols = [])
    (hfail : runFailed env b T rows ≠ []) :
    (lambda_handler env (.parsed b)).1.statusCode = 207 ∧
    (lambda_handler env (.parsed b)).1.body = Body.summary
      { status := "success", message := "Email request has been queued successfully.",
        request_id := runIdOf env b, timestamp := env.responseTime,
        sqs_message_id := env.sqsMessageId,
        failed_recipients := some (runFailed env b T rows) } := by
  rw [handlerBody_dispatch env b T rows cols hf hT hS hr hc hv]
  unfold runFailed at hfail ⊢
  cases hF : (processRows env (runIdOf env b) (b.subject.getD "") T
      (b.display_name.getD "") (b.template_file_id.getD "")
      (b.spreadsheet_file_id.getD "") rows 0).2 with
  | nil => exact absurd hF hfail
  | cons x xs => refine ⟨?_, ?_⟩ <;> simp [dispatchResult, hF]

/-- Witness for C10 at a run whose single delivery fails. -/
theorem failed_run_status_field_witness :
    (lambda_handler envSendFail (.parsed fullBody)).1.statusCode = 207 ∧
    (lambda_handler envSendFail (.parsed fullBody)).1.body = Body.summary
      { status := "success", message := "Email request has been queued successfully.",
        request_id := runIdOf envSendFail fullBody, timestamp := envSendFail.responseTime,
        sqs_message_id := envSendFail.sqsMessageId,
        failed_recipients := some (runFailed envSendFail fullBody T0 rows0) } :=
  failed_run_status_field envSendFail fullBody T0 rows0 cols0
    rfl rfl rfl rfl rfl rfl (by decide)

end SendEmail
